import Mathlib

/-!
Shallow embedding of the "write view data to DynamoDB" Lambda pipeline:
`normalize_view_value`, `_get_contact_details`, `_write_to_dynamodb` and
`lambda_handler` from `test.py`, `extract_name_label_pairs` from
`extract_view_questions.py`, and the tagged-value parsing loop of
`process_task_event` from `process_contact_flow_event.py`.

Python dicts are modelled as insertion-ordered association lists with unique
keys; Python values as the inductive `Doc`; Python truthiness as `truthy`.
Upstream AWS calls are oracles passed in as functions returning `Except`
(a `.error` models the call raising an exception).
-/

namespace WVD

/-- A Python/JSON value: strings, numbers, booleans, None, lists and dicts
(dicts kept as insertion-ordered association lists). -/
inductive Doc where
  | str (s : String)
  | num (n : Int)
  | bool (b : Bool)
  | null
  | list (xs : List Doc)
  | dict (kvs : List (String × Doc))

/-- Python truthiness of a value (`bool(v)`). -/
def truthy : Doc → Bool
  | .str s => s ≠ ""
  | .num n => n ≠ 0
  | .bool b => b
  | .null => false
  | .list xs => !xs.isEmpty
  | .dict kvs => !kvs.isEmpty

/-- Truthiness of a `dict.get` result: `None` (absent) is falsy. -/
def truthyOpt : Option Doc → Bool
  | none => false
  | some v => truthy v

/-- Truthiness of an optional string (`None` and `""` falsy). -/
def truthyStr : Option String → Bool
  | none => false
  | some s => s ≠ ""

/-- `d.get(k)`: first binding of `k` (dicts have unique keys). -/
def dget {α : Type} (m : List (String × α)) (k : String) : Option α :=
  (m.find? (fun p => p.1 = k)).map (·.2)

/-- `d.get(k, dflt)`. -/
def dgetD {α : Type} (m : List (String × α)) (k : String) (dflt : α) : α :=
  (dget m k).getD dflt

/-- `d[k] = v`: replace the value in place if `k` is already bound,
else append the new binding (CPython insertion-order semantics). -/
def dset {α : Type} (m : List (String × α)) (k : String) (v : α) : List (String × α) :=
  if m.any (fun p => p.1 = k) then
    m.map (fun p => if p.1 = k then (k, v) else p)
  else m ++ [(k, v)]

/-- `m.update(d)`: assign each binding of `d` into `m`, in order. -/
def dupdate {α : Type} (m d : List (String × α)) : List (String × α) :=
  d.foldl (fun acc p => dset acc p.1 p.2) m

/-- Last binding of `k` in an association list (the value `d[k]` has after
replaying `d` as assignments, where later bindings win). -/
def dlast {α : Type} (m : List (String × α)) (k : String) : Option α :=
  match m with
  | [] => none
  | p :: tl =>
    match dlast tl k with
    | some v => some v
    | none => if p.1 = k then some p.2 else none

/-- Drop every binding whose key is listed (used to compare records modulo
a fixed set of fields). -/
def eraseKeys {α : Type} (m : List (String × α)) (ks : List String) : List (String × α) :=
  m.filter (fun p => !ks.contains p.1)

/-- Python `repr(v)`, approximated: strings quoted, containers rendered
recursively. Claims only need this to be a fixed total rendering function. -/
def pyRepr : Doc → String
  | .str s => "'" ++ s ++ "'"
  | .num n => toString n
  | .bool b => if b then "True" else "False"
  | .null => "None"
  | .list xs => "[" ++ ", ".intercalate (xs.attach.map (fun x => pyRepr x.1)) ++ "]"
  | .dict kvs =>
      "\x7b" ++
        ", ".intercalate (kvs.attach.map (fun p => "'" ++ p.1.1 ++ "': " ++ pyRepr p.1.2)) ++
      "\x7d"
decreasing_by
  · have := List.sizeOf_lt_of_mem x.2
    simp only [Doc.list.sizeOf_spec]
    omega
  · obtain ⟨⟨k, v⟩, hp⟩ := p
    have := List.sizeOf_lt_of_mem hp
    simp only [Doc.dict.sizeOf_spec, Prod.mk.sizeOf_spec] at this ⊢
    omega

/-- Python `str(v)`: identity on strings, `repr`-style otherwise. -/
def pyStr : Doc → String
  | .str s => s
  | v => pyRepr v

/-- Python `str.isdigit()` restricted to ASCII: non-empty and all characters
decimal digits (the inputs the claims quantify over). -/
def isDigits (s : String) : Bool :=
  !s.data.isEmpty && s.data.all (fun c => c.isDigit)

/-- `int(s)` for a decimal-digit string. -/
def strToNat (s : String) : Nat :=
  s.data.foldl (fun n c => n * 10 + (c.toNat - 48)) 0

/-- Insert into a list sorted by `strToNat` of the key, before the first
element with a key of greater-or-equal numeric value (stable insertion:
together with `sortByNumKey` this reproduces Python's stable `sorted`). -/
def insNumKey (x : String × Doc) : List (String × Doc) → List (String × Doc)
  | [] => [x]
  | y :: ys => if strToNat x.1 ≤ strToNat y.1 then x :: y :: ys else y :: insNumKey x ys

/-- Stable sort of the bindings by the numeric value of their keys:
`sorted(raw_value.keys(), key=lambda x: int(x))` followed by the dict
projection (keys are unique in a Python dict, so sorting the pairs agrees
with sorting the keys and then looking each one up). -/
def sortByNumKey : List (String × Doc) → List (String × Doc)
  | [] => []
  | x :: xs => insNumKey x (sortByNumKey xs)

/-- `normalize_view_value` (test.py): multi-select dict with all-digit keys
becomes a comma-joined string of its values in numeric key order; a list
becomes a comma-joined string of its stringified elements; anything else is
returned unchanged. -/
def normalize_view_value (raw_value : Doc) : Doc :=
  match raw_value with
  | .dict kvs =>
      if kvs.all (fun p => isDigits p.1) then
        .str (", ".intercalate ((sortByNumKey kvs).map (fun p => pyStr p.2)))
      else .dict kvs
  | .list xs => .str (", ".intercalate (xs.map pyStr))
  | v => v

/-! ## extract_name_label_pairs (extract_view_questions.py) -/

/-- `data.get("Name") or data.get("name")`: the `"Name"` binding when truthy,
otherwise the `"name"` binding (which may itself be absent or falsy). -/
def nameCandidate (kvs : List (String × Doc)) : Option Doc :=
  let a := dget kvs "Name"
  if truthyOpt a then a else dget kvs "name"

/-- The label loop: the first of `"Label"`, `"label"` that is present with a
string value (possibly empty); non-string values are skipped. -/
def labelCandidate (kvs : List (String × Doc)) : Option String :=
  match dget kvs "Label" with
  | some (.str s) => some s
  | _ =>
    match dget kvs "label" with
    | some (.str s) => some s
    | _ => none

/-- The pair `{"Name": name, "Label": label}` a dict node emits, when
`if name and label:` passes (name truthy and label a non-empty string). -/
def nodePair (kvs : List (String × Doc)) : Option (Doc × String) :=
  match nameCandidate kvs, labelCandidate kvs with
  | some n, some l => if truthy n && l ≠ "" then some (n, l) else none
  | _, _ => none

/-- `extract_name_label_pairs`: recursively walk the document; each dict node
first appends its own pair (when it emits one), then recurses into its values
in order; list nodes recurse into their elements; scalars yield nothing. -/
def extract_name_label_pairs : Doc → List (Doc × String)
  | .dict kvs =>
      (match nodePair kvs with | some p => [p] | none => []) ++
      (kvs.attach.map (fun p => extract_name_label_pairs p.1.2)).flatten
  | .list xs => (xs.attach.map (fun x => extract_name_label_pairs x.1)).flatten
  | _ => []
decreasing_by
  · obtain ⟨⟨k, v⟩, hp⟩ := p
    have := List.sizeOf_lt_of_mem hp
    simp only [Doc.dict.sizeOf_spec, Prod.mk.sizeOf_spec] at this ⊢
    omega
  · have := List.sizeOf_lt_of_mem x.2
    simp only [Doc.list.sizeOf_spec]
    omega

/-- Number of dict nodes that emit a pair under the source's condition
(`nodePair`), counting a node and its emitting descendants independently. -/
def countEmitting : Doc → Nat
  | .dict kvs =>
      (if (nodePair kvs).isSome then 1 else 0) +
      (kvs.attach.map (fun p => countEmitting p.1.2)).sum
  | .list xs => (xs.attach.map (fun x => countEmitting x.1)).sum
  | _ => 0
decreasing_by
  · obtain ⟨⟨k, v⟩, hp⟩ := p
    have := List.sizeOf_lt_of_mem hp
    simp only [Doc.dict.sizeOf_spec, Prod.mk.sizeOf_spec] at this ⊢
    omega
  · have := List.sizeOf_lt_of_mem x.2
    simp only [Doc.list.sizeOf_spec]
    omega

/-- Character-wise lowercasing (`str.lower()` on ASCII keys). -/
def lowerAscii (s : String) : String :=
  String.mk (s.data.map Char.toLower)

/-- The claim's matching condition, following its words: a key matching
`"name"` case-insensitively with a non-empty string value, and likewise for
`"label"`. -/
def claimHasCI (kvs : List (String × Doc)) (target : String) : Bool :=
  kvs.any (fun p =>
    lowerAscii p.1 = target &&
    (match p.2 with | .str s => s ≠ "" | _ => false))

/-- Number of dict nodes matching the claim's case-insensitive, non-empty
string condition (spec-side definition, used only to compare with the
source's behaviour). -/
def claimMatchCount : Doc → Nat
  | .dict kvs =>
      (if claimHasCI kvs "name" && claimHasCI kvs "label" then 1 else 0) +
      (kvs.attach.map (fun p => claimMatchCount p.1.2)).sum
  | .list xs => (xs.attach.map (fun x => claimMatchCount x.1)).sum
  | _ => 0
decreasing_by
  · obtain ⟨⟨k, v⟩, hp⟩ := p
    have := List.sizeOf_lt_of_mem hp
    simp only [Doc.dict.sizeOf_spec, Prod.mk.sizeOf_spec] at this ⊢
    omega
  · have := List.sizeOf_lt_of_mem x.2
    simp only [Doc.list.sizeOf_spec]
    omega

/-! ## Tagged-value decoding (process_contact_flow_event.py, process_task_event) -/

/-- `k in d` for a dict. -/
def dmem (m : List (String × Doc)) (k : String) : Bool :=
  m.any (fun p => p.1 = k)

/-- The tagged-union parsing of one case field value in `process_task_event`:
variant keys tried in the source's order `stringValue`, `doubleValue`,
`booleanValue`, `userArnValue`, `emptyValue`; the first present key wins and
its value is returned verbatim (`emptyValue` decodes to `None`); with no
known key the whole structure is stringified and the returned flag is true
(the code logs an "Unknown value type" warning there). Total: never fails. -/
def decodeTagged (value_obj : List (String × Doc)) : Doc × Bool :=
  if dmem value_obj "stringValue" then (dgetD value_obj "stringValue" .null, false)
  else if dmem value_obj "doubleValue" then (dgetD value_obj "doubleValue" .null, false)
  else if dmem value_obj "booleanValue" then (dgetD value_obj "booleanValue" .null, false)
  else if dmem value_obj "userArnValue" then (dgetD value_obj "userArnValue" .null, false)
  else if dmem value_obj "emptyValue" then (.null, false)
  else (.str (pyStr (.dict value_obj)), true)

/-! ## _get_contact_details (test.py): lineage walk and extraction

Upstream AWS calls are oracles returning `Except PyErr`; a `.error` models
the call raising. The Python function wraps its whole body in a
`try/except` and therefore always returns a plain record; the embedding
mirrors this by giving `getContactDetails` the non-monadic return type
`Record` while its oracles may fail. -/

/-- A Python exception: class name, message, and whether it is a botocore
`ClientError` (selects the log template used at the catch sites). -/
structure PyErr where
  className : String := "Exception"
  msg : String := ""
  isClient : Bool := false

/-- `Contact.AgentInfo` fields read by the source. -/
structure AgentData where
  id : Option String := none
  connectedToAgentTimestamp : Option String := none
  acceptedByAgentTimestamp : Option String := none
  afterContactWorkStartTimestamp : Option String := none
  afterContactWorkEndTimestamp : Option String := none

/-- `Contact.QueueInfo` fields read by the source. -/
structure QueueInfoData where
  enqueueTimestamp : Option String := none

/-- `Contact.Campaign` fields read by the source. -/
structure CampaignData where
  campaignId : Option String := none

/-- The fields of a `describe_contact` response's `Contact` that the source
reads. Timestamps are modelled as the ISO strings the code converts them
to; an absent or falsy field is `none`/`""`. -/
structure Contact where
  channel : Option String := none
  relatedContactId : Option String := none
  initiationTimestamp : Option String := none
  disconnectTimestamp : Option String := none
  connectedToSystemTimestamp : Option String := none
  lastUpdateTimestamp : Option String := none
  lastPausedTimestamp : Option String := none
  lastResumedTimestamp : Option String := none
  scheduledTimestamp : Option String := none
  agentInfo : Option AgentData := none
  queueInfo : Option QueueInfoData := none
  campaign : Option CampaignData := none

instance : Inhabited Contact := ⟨{}⟩

/-- The `for hop in range(5)` chain walk of `_get_contact_details`: fetch the
current contact; stop on channel `"VOICE"`, on a falsy `RelatedContactId`, or
on a self-reference; otherwise advance (also on the final iteration, so the
walk can end on an id that was never fetched). Returns the trace of ids the
fetch was invoked on, and either the final `(current_id, contact)` pair or
the error that aborted the walk. `fuel` is the remaining loop iterations. -/
def chainWalk (fetchContact : String → Except PyErr Contact) :
    Nat → String → Contact → List String →
    List String × Except PyErr (String × Contact)
  | 0, cid, c, tr => (tr, .ok (cid, c))
  | n + 1, cid, _, tr =>
    match fetchContact cid with
    | .error e => (tr ++ [cid], .error e)
    | .ok c =>
      if c.channel.getD "" = "VOICE" then (tr ++ [cid], .ok (cid, c))
      else
        match c.relatedContactId with
        | none => (tr ++ [cid], .ok (cid, c))
        | some r =>
          if r = "" || r = cid then (tr ++ [cid], .ok (cid, c))
          else chainWalk fetchContact n r c (tr ++ [cid])

/-- The accumulated `result` dict of `_get_contact_details`: keys paired with
string values, in insertion order. -/
abbrev Record := List (String × String)

/-- Append a binding only when the value is present and truthy
(`if ts_val: result[k] = ...`). -/
def addIf (r : Record) (k : String) (v : Option String) : Record :=
  match v with
  | some s => if s ≠ "" then r ++ [(k, s)] else r
  | none => r

/-- Post-walk extraction that depends only on the final contact:
`DescribedContactId`, channel, the seven contact timestamps, the four
agent timestamps, and the enqueue timestamp, in the source's order. -/
def basePart (curId : String) (c : Contact) : Record :=
  let r : Record := [("DescribedContactId", curId)]
  let r := addIf r "OriginalContactChannel" c.channel
  let r := addIf r "InitiationTimestamp" c.initiationTimestamp
  let r := addIf r "DisconnectTimestamp" c.disconnectTimestamp
  let r := addIf r "ConnectedToSystemTimestamp" c.connectedToSystemTimestamp
  let r := addIf r "LastUpdateTimestamp" c.lastUpdateTimestamp
  let r := addIf r "LastPausedTimestamp" c.lastPausedTimestamp
  let r := addIf r "LastResumedTimestamp" c.lastResumedTimestamp
  let r := addIf r "ScheduledTimestamp" c.scheduledTimestamp
  let ai := c.agentInfo.getD {}
  let r := addIf r "ConnectedToAgentTimestamp" ai.connectedToAgentTimestamp
  let r := addIf r "AcceptedByAgentTimestamp" ai.acceptedByAgentTimestamp
  let r := addIf r "AfterContactWorkStartTimestamp" ai.afterContactWorkStartTimestamp
  let r := addIf r "AfterContactWorkEndTimestamp" ai.afterContactWorkEndTimestamp
  let qi := c.queueInfo.getD {}
  addIf r "EnqueueTimestamp" qi.enqueueTimestamp

/-- The `describe_user` response fields the source reads
(`IdentityInfo.FirstName/LastName` default `""`, and `Username`). -/
structure UserData where
  firstName : String := ""
  lastName : String := ""
  username : Option String := none

/-- The fields the agent-identity block contributes given the outcome of the
`describe_user` call: `AgentId` always (it is set before the guarded call),
then `AgentName` when a first or last name is present and `AgentUsername`
when truthy; a caught failure leaves only `AgentId`. -/
def agentUserFields (aid : String) (res : Except PyErr UserData) : Record :=
  match res with
  | .ok u =>
    let r : Record := [("AgentId", aid)]
    let r :=
      if u.firstName ≠ "" || u.lastName ≠ "" then
        r ++ [("AgentName", (u.firstName ++ " " ++ u.lastName).trim)]
      else r
    addIf r "AgentUsername" u.username
  | .error _ => [("AgentId", aid)]

/-- The agent-identity block: when an agent id is present and truthy,
`AgentId` plus whatever the guarded `describe_user` call yields. -/
def agentPart (fetchUser : String → Except PyErr UserData) (c : Contact) : Record :=
  match (c.agentInfo.getD {}).id with
  | some aid => if aid ≠ "" then agentUserFields aid (fetchUser aid) else []
  | none => []

/-- The fields the campaign block contributes given the outcome of the
`describe_campaign` call (modelled as returning the campaign's optional
name): `CampaignId` always, `CampaignName` when the fetched name is truthy;
a caught failure or an absent name leaves only `CampaignId`. -/
def campaignNameFields (cmId : String) (res : Except PyErr (Option String)) : Record :=
  match res with
  | .ok (some nm) =>
    if nm ≠ "" then [("CampaignId", cmId), ("CampaignName", nm)]
    else [("CampaignId", cmId)]
  | _ => [("CampaignId", cmId)]

/-- The campaign block: when a campaign id is present and truthy,
`CampaignId` plus whatever the guarded `describe_campaign` call yields. -/
def campaignPart (fetchCampaign : String → Except PyErr (Option String)) (c : Contact) : Record :=
  match (c.campaign.getD {}).campaignId with
  | some cmId => if cmId ≠ "" then campaignNameFields cmId (fetchCampaign cmId) else []
  | none => []

/-- `_get_contact_details`: run the 5-iteration chain walk, then extract from
the final contact. The outer `try/except` of the source catches a
`describe_contact` failure and returns the `result` dict as accumulated at
that point — nothing has been added to it before the walk completes, so a
walk failure yields the empty record. -/
def getContactDetails (fetchContact : String → Except PyErr Contact)
    (fetchUser : String → Except PyErr UserData)
    (fetchCampaign : String → Except PyErr (Option String))
    (contactId : String) : Record :=
  match (chainWalk fetchContact 5 contactId {} []).2 with
  | .error _ => []
  | .ok (curId, c) =>
    basePart curId c ++ agentPart fetchUser c ++ campaignPart fetchCampaign c

/-! ## lambda_handler (test.py) -/

/-- `CustomerEndpoint` / `SystemEndpoint` fields the source reads. -/
structure EndpointData where
  address : Option String := none

/-- `Queue` fields the source reads. -/
structure QueueRef where
  name : Option String := none
  outboundCallerId : Option String := none

/-- The `Details.ContactData` fields the source reads. -/
structure ContactData where
  initialContactId : Option String := none
  contactId : Option String := none
  previousContactId : Option String := none
  relatedContactId : Option String := none
  customerEndpoint : Option EndpointData := none
  systemEndpoint : Option EndpointData := none
  initiationMethod : Option String := none
  channel : Option String := none
  queue : Option QueueRef := none
  instanceARN : Option String := none

/-- The parts of the inbound event the handler reads:
`Details.Parameters.viewResultData` (a dict, kept as an ordered association
list with unique keys), `Details.Parameters.viewAction` (already defaulted
to `""` as in `parameters.get("viewAction", "") or ""`), and
`Details.ContactData`. -/
structure EventInput where
  viewResultData : List (String × Doc) := []
  viewAction : String := ""
  contactData : ContactData := {}

/-- Environment-derived configuration of test.py. `ddbEnabled` is
`bool(_DDB_TABLE and _DDB_PK)` (gates the boto3 resource), `pkName` is
`_DDB_PK`, `vqTable` is `_VIEW_QUESTIONS_TABLE`; `now` is `int(time.time())`
and `createdAt` the already-rendered `datetime.now(tz).strftime(...)` string
(both time oracles). -/
structure Config where
  ddbEnabled : Bool := true
  pkName : String := "InitialContactId"
  tableName : String := "table"
  vqTable : Option String := none
  now : Int := 0
  createdAt : String := ""

/-- The upstream collaborators of the handler, as fallible oracles:
`describe_contact`, `describe_user`, `describe_campaign` (its optional
campaign name), the ViewQuestions table `query` (the `Items` list, each item
a dict), and the DynamoDB `put_item`. -/
structure Upstream where
  fetchContact : String → Except PyErr Contact
  fetchUser : String → Except PyErr UserData
  fetchCampaign : String → Except PyErr (Option String)
  vqQuery : String → Except PyErr (List (List (String × Doc)))
  store : List (String × Doc) → Except PyErr Unit

/-- A structured log line: the format template and its `%s` arguments. -/
structure LogEntry where
  template : String
  args : List String

/-- `_write_to_dynamodb` (test.py): when configured, attempt exactly one
`put_item`; storage failures are caught locally, and the failure log line
carries only the error class name and message. Returns the attempted
`put_item` payloads and the log entries emitted. -/
def write_to_dynamodb (cfg : Config) (store : List (String × Doc) → Except PyErr Unit)
    (item : List (String × Doc)) :
    List (List (String × Doc)) × List LogEntry :=
  if !cfg.ddbEnabled then
    ([], [⟨"DynamoDB not configured: skipping write (missing DDB_TABLE_NAME or DDB_PK_NAME).", []⟩])
  else
    match store item with
    | .ok _ =>
        ([item], [⟨"DynamoDB write success: table=%s pk=%s ttl_days=365",
                   [cfg.tableName, pyStr (dgetD item cfg.pkName (.str "unknown"))]⟩])
    | .error e =>
        ([item], [⟨if e.isClient then "DynamoDB ClientError: %s: %s"
                   else "DynamoDB write failed: %s: %s",
                   [e.className, e.msg]⟩])

/-- The normalization loop of `lambda_handler`: normalize every
`viewResultData` value in order, then add `viewAction` when truthy. The
per-key `try/except` fallback cannot trigger in this model because
`normalize_view_value` is total. -/
def normalizedAttributes (ev : EventInput) : List (String × Doc) :=
  let base := ev.viewResultData.foldl (fun acc p => dset acc p.1 (normalize_view_value p.2)) []
  if ev.viewAction ≠ "" then dset base "viewAction" (.str ev.viewAction) else base

/-- One iteration of the ViewQuestions lookup loop of `lambda_handler`:
`"viewAction"` is skipped; otherwise the side table is queried, and if the
first returned item has a truthy `Label`, `<key>_Question` is set to it; a
query failure is caught and leaves the item unchanged. -/
def vqApplyKey (vq : String → Except PyErr (List (List (String × Doc))))
    (item : List (String × Doc)) (k : String) : List (String × Doc) :=
  if k = "viewAction" then item
  else
    match vq k with
    | .error _ => item
    | .ok [] => item
    | .ok (it :: _) =>
      let lbl := dgetD it "Label" (.str "")
      if truthy lbl then dset item (k ++ "_Question") lbl else item

/-- The ViewQuestions lookup loop over all normalized keys, in order. -/
def vqItemStage (vq : String → Except PyErr (List (List (String × Doc))))
    (keys : List String) (item0 : List (String × Doc)) : List (String × Doc) :=
  keys.foldl (vqApplyKey vq) item0

/-- The keys the ViewQuestions loop issues a query for: every normalized key
except `"viewAction"`, in order (a query is attempted whether or not it
succeeds or produces a label). -/
def vqQueriedKeys (keys : List String) : List String :=
  keys.filter (fun k => k ≠ "viewAction")

/-- What a handler invocation did: its return value (the normalized
attributes), the `put_item` payloads attempted, the ViewQuestions keys
queried, and the write-stage log entries. -/
structure HandlerOut where
  ret : List (String × Doc)
  puts : List (List (String × Doc))
  queries : List String
  logs : List LogEntry

/-- The nine optional contact attributes, in the source's literal order,
with the guarded nested lookups of the Python expressions. -/
def optionalContactFields (cd : ContactData) : List (String × Option String) :=
  [("ContactId", cd.contactId),
   ("PreviousContactId", cd.previousContactId),
   ("RelatedContactId", cd.relatedContactId),
   ("CustomerEndpointAddress", (cd.customerEndpoint.getD {}).address),
   ("InitiationMethod", cd.initiationMethod),
   ("Channel", cd.channel),
   ("QueueName", match cd.queue with | some q => q.name | none => none),
   ("SystemEndpointAddress", match cd.systemEndpoint with | some e => e.address | none => none),
   ("OutboundCallerId", match cd.queue with | some q => q.outboundCallerId | none => none)]

/-- The item `lambda_handler` builds before the ViewQuestions stage, by
successive dict updates in the source's order: primary key and ttl, the
normalized attributes, the truthy optional contact fields, `CreatedAt`, and
finally the lineage record from `_get_contact_details` (gated on a truthy
`InstanceARN` and `RelatedContactId`) — so a later stage's binding
overwrites an earlier one of the same key. -/
def handlerItem (cfg : Config) (up : Upstream) (ev : EventInput) : List (String × Doc) :=
  let normalized := normalizedAttributes ev
  let cd := ev.contactData
  let icid := cd.initialContactId.getD ""
  let ttlValue : Int := cfg.now + 365 * 24 * 3600
  let item : List (String × Doc) := [(cfg.pkName, .str icid), ("ttl", .num ttlValue)]
  let item := dupdate item normalized
  let item := (optionalContactFields cd).foldl
    (fun acc p =>
      match p.2 with
      | some s => if s ≠ "" then dset acc p.1 (.str s) else acc
      | none => acc)
    item
  let item := dset item "CreatedAt" (.str cfg.createdAt)
  if truthyStr cd.instanceARN && truthyStr cd.relatedContactId then
    dupdate item
      ((getContactDetails up.fetchContact up.fetchUser up.fetchCampaign
          (cd.relatedContactId.getD "")).map (fun p => (p.1, Doc.str p.2)))
  else item

/-- The item actually handed to `_write_to_dynamodb`: `handlerItem` with the
ViewQuestions labels applied when that stage is configured. -/
def handlerFinalItem (cfg : Config) (up : Upstream) (ev : EventInput) :
    List (String × Doc) :=
  if truthyStr cfg.vqTable && cfg.ddbEnabled then
    vqItemStage up.vqQuery ((normalizedAttributes ev).map (fun p => p.1))
      (handlerItem cfg up ev)
  else handlerItem cfg up ev

/-- `lambda_handler` (test.py): normalize the view result data; when
`InitialContactId` is truthy, build `handlerFinalItem` and hand it to
`_write_to_dynamodb`; when `InitialContactId` is absent or falsy, skip the
whole storage block and only warn. Always returns the normalized
attributes. -/
def lambda_handler (cfg : Config) (up : Upstream) (ev : EventInput) : HandlerOut :=
  let normalized := normalizedAttributes ev
  if truthyStr ev.contactData.initialContactId then
    let w := write_to_dynamodb cfg up.store (handlerFinalItem cfg up ev)
    { ret := normalized, puts := w.1,
      queries :=
        if truthyStr cfg.vqTable && cfg.ddbEnabled then
          vqQueriedKeys (normalized.map (fun p => p.1))
        else [],
      logs := w.2 }
  else
    { ret := normalized, puts := [], queries := [],
      logs := [⟨"InitialContactId not found in event; skipping DynamoDB write.", []⟩] }

/-! ## Concrete fixtures used by the theorems -/

/-- The `i`-th contact of an eight-element related-contact chain
`c0 → c1 → … → c7`, none of which is a VOICE contact. -/
def chain8Contact (i : Nat) : Contact :=
  { channel := some "CHAT",
    relatedContactId := if i < 7 then some ("c" ++ toString (i + 1)) else none }

/-- `describe_contact` oracle serving the eight-element chain. -/
def chain8Fetch (cid : String) : Except PyErr Contact :=
  if cid = "c0" then .ok (chain8Contact 0)
  else if cid = "c1" then .ok (chain8Contact 1)
  else if cid = "c2" then .ok (chain8Contact 2)
  else if cid = "c3" then .ok (chain8Contact 3)
  else if cid = "c4" then .ok (chain8Contact 4)
  else if cid = "c5" then .ok (chain8Contact 5)
  else if cid = "c6" then .ok (chain8Contact 6)
  else if cid = "c7" then .ok (chain8Contact 7)
  else .error {}

/-- Oracle whose every contact is a terminal VOICE contact. -/
def voiceFetch : String → Except PyErr Contact :=
  fun _ => .ok { channel := some "VOICE" }

/-- Oracle serving the two-element cycle `A → B → A`. -/
def cycleFetch (cid : String) : Except PyErr Contact :=
  if cid = "A" then .ok { channel := some "CHAT", relatedContactId := some "B" }
  else if cid = "B" then .ok { channel := some "CHAT", relatedContactId := some "A" }
  else .error {}

/-- Always-raising `describe_contact` oracle. -/
def failContact : String → Except PyErr Contact := fun _ => .error {}

/-- Always-raising `describe_user` oracle. -/
def failUser : String → Except PyErr UserData := fun _ => .error {}

/-- Always-raising `describe_campaign` oracle. -/
def failCampaign : String → Except PyErr (Option String) := fun _ => .error {}

/-- Always-succeeding `put_item` oracle. -/
def okStore : List (String × Doc) → Except PyErr Unit := fun _ => .ok ()

/-- `put_item` oracle that raises a botocore `ClientError`. -/
def failStoreClient : List (String × Doc) → Except PyErr Unit :=
  fun _ => .error { className := "ClientError", msg := "boom", isClient := true }

/-- ViewQuestions query oracle returning no items. -/
def emptyVq : String → Except PyErr (List (List (String × Doc))) := fun _ => .ok []

/-- Upstream bundle with failing describe oracles, empty lookups and a
succeeding store. -/
def stubUpstream : Upstream :=
  { fetchContact := failContact, fetchUser := failUser,
    fetchCampaign := failCampaign, vqQuery := emptyVq, store := okStore }

/-- Default configuration: storage configured, no ViewQuestions table. -/
def exCfg : Config := {}

/-- Event whose normalized field `"ContactId"` collides with the optional
contact attribute of the same name. -/
def exC1Event : EventInput :=
  { viewResultData := [("ContactId", .str "FROMVIEW")],
    contactData := { initialContactId := some "IC-1", contactId := some "REAL" } }

/-- Configuration with the ViewQuestions side table enabled. -/
def exC2Cfg : Config := { vqTable := some "VQ" }

/-- Upstream bundle whose ViewQuestions query returns a label for `"q1"`. -/
def exC2Up : Upstream :=
  { fetchContact := failContact, fetchUser := failUser,
    fetchCampaign := failCampaign,
    vqQuery := fun k =>
      if k = "q1" then .ok [[("Label", .str "QText")]] else .ok [],
    store := okStore }

/-- Event with one normalized field `"q1"`. -/
def exC2Event : EventInput :=
  { viewResultData := [("q1", .str "ans")],
    contactData := { initialContactId := some "IC-2" } }

/-- Item whose primary-key attribute is `"K-123"`. -/
def exC9Item : List (String × Doc) :=
  [("InitialContactId", .str "K-123"), ("status", .str "Open")]

/-- Event with the lineage gate satisfied (truthy `InstanceARN` and
`RelatedContactId`). -/
def exC1WEvent : EventInput :=
  { viewResultData := [],
    contactData := { initialContactId := some "IC-9",
                     instanceARN := some "arn:aws:connect:x",
                     relatedContactId := some "R1" } }

/-- Upstream bundle whose `describe_contact` always returns a VOICE contact. -/
def exC1WUp : Upstream := { stubUpstream with fetchContact := voiceFetch }

/-! ## Association list lemmas -/

theorem dget_cons {α : Type} (p : String × α) (tl : List (String × α)) (k : String) :
    dget (p :: tl) k = if p.1 = k then some p.2 else dget tl k := by
  by_cases h : p.1 = k <;> simp [dget, List.find?_cons, h]

theorem dget_append {α : Type} (a b : List (String × α)) (k : String) :
    dget (a ++ b) k = (dget a k).or (dget b k) := by
  cases h : List.find? (fun p => p.1 = k) a <;>
    simp [dget, List.find?_append, h]

theorem dget_eq_none_of_any_false {α : Type} {m : List (String × α)} {k : String}
    (h : m.any (fun p => p.1 = k) = false) : dget m k = none := by
  induction m with
  | nil => rfl
  | cons p tl ih =>
    simp only [List.any_cons, Bool.or_eq_false_iff] at h
    rw [dget_cons, if_neg (by simpa using h.1)]
    exact ih h.2

theorem dget_map_replace_self {α : Type} (m : List (String × α)) (k : String) (v : α)
    (h : m.any (fun p => p.1 = k) = true) :
    dget (m.map (fun p => if p.1 = k then (k, v) else p)) k = some v := by
  induction m with
  | nil => simp at h
  | cons p tl ih =>
    simp only [List.map_cons]
    by_cases hp : p.1 = k
    · simp [hp, dget_cons]
    · rw [if_neg hp, dget_cons, if_neg hp]
      simp only [List.any_cons, Bool.or_eq_true] at h
      rcases h with h | h
      · exact absurd (by simpa using h) hp
      · exact ih h

theorem dget_map_replace_ne {α : Type} (m : List (String × α)) {k q : String} (v : α)
    (h : q ≠ k) :
    dget (m.map (fun p => if p.1 = k then (k, v) else p)) q = dget m q := by
  induction m with
  | nil => rfl
  | cons p tl ih =>
    simp only [List.map_cons]
    by_cases hp : p.1 = k
    · rw [if_pos hp, dget_cons, dget_cons, if_neg (fun hc => h hc.symm),
        if_neg (fun hc => h (hp ▸ hc).symm)]
      exact ih
    · rw [if_neg hp, dget_cons, dget_cons]
      by_cases hq : p.1 = q <;> simp [hq, ih]

theorem dget_dset_self {α : Type} (m : List (String × α)) (k : String) (v : α) :
    dget (dset m k v) k = some v := by
  unfold dset
  split
  case isTrue h => exact dget_map_replace_self m k v h
  case isFalse h =>
    rw [dget_append, dget_eq_none_of_any_false (Bool.eq_false_iff.mpr h)]
    simp [dget_cons]

theorem dget_dset_ne {α : Type} (m : List (String × α)) {k q : String} (v : α)
    (h : q ≠ k) : dget (dset m k v) q = dget m q := by
  unfold dset
  split
  · exact dget_map_replace_ne m v h
  · rw [dget_append]
    have hk : ¬(k = q) := fun hc => h hc.symm
    cases hm : dget m q <;> simp [hm, dget, dget_cons, hk]

theorem dlast_map_snd {α β : Type} (f : α → β) (m : List (String × α)) (k : String) :
    dlast (m.map (fun p => (p.1, f p.2))) k = (dlast m k).map f := by
  induction m with
  | nil => rfl
  | cons p tl ih =>
    simp only [List.map_cons, dlast, ih]
    cases dlast tl k with
    | some v => simp
    | none =>
      simp only [Option.map_none]
      by_cases hp : p.1 = k <;> simp [hp]

theorem dget_dupdate {α : Type} (m d : List (String × α)) (k : String) :
    dget (dupdate m d) k = ((dlast d k).map some).getD (dget m k) := by
  induction d generalizing m with
  | nil => rfl
  | cons p tl ih =>
    show dget (dupdate (dset m p.1 p.2) tl) k = _
    rw [ih]
    cases hd : dlast tl k with
    | some v => simp [dlast, hd]
    | none =>
      by_cases hp : p.1 = k
      · subst hp
        simp [dlast, hd, dget_dset_self]
      · simp [dlast, hd, hp, dget_dset_ne m p.2 (fun hc => hp hc.symm)]

/-! ## Sorting lemmas for the multi-select normalizer -/

theorem insNumKey_perm (x : String × Doc) (l : List (String × Doc)) :
    (insNumKey x l).Perm (x :: l) := by
  induction l with
  | nil => exact List.Perm.refl _
  | cons y ys ih =>
    unfold insNumKey
    split
    · exact List.Perm.refl _
    · exact (ih.cons y).trans (List.Perm.swap x y ys)

theorem sortByNumKey_perm (l : List (String × Doc)) :
    (sortByNumKey l).Perm l := by
  induction l with
  | nil => exact List.Perm.refl _
  | cons x xs ih =>
    exact (insNumKey_perm x (sortByNumKey xs)).trans (ih.cons x)

theorem mem_insNumKey {x y : String × Doc} {l : List (String × Doc)}
    (h : y ∈ insNumKey x l) : y = x ∨ y ∈ l :=
  List.mem_cons.mp ((insNumKey_perm x l).mem_iff.mp h)

theorem insNumKey_sorted (x : String × Doc) {l : List (String × Doc)}
    (h : l.Pairwise (fun a b => strToNat a.1 ≤ strToNat b.1)) :
    (insNumKey x l).Pairwise (fun a b => strToNat a.1 ≤ strToNat b.1) := by
  induction l with
  | nil => simp [insNumKey]
  | cons y ys ih =>
    rw [List.pairwise_cons] at h
    unfold insNumKey
    split
    case isTrue hle =>
      refine List.Pairwise.cons ?_ (List.Pairwise.cons h.1 h.2)
      intro a ha
      rcases List.mem_cons.mp ha with rfl | ha
      · exact hle
      · exact le_trans hle (h.1 a ha)
    case isFalse hgt =>
      refine List.Pairwise.cons ?_ (ih h.2)
      intro a ha
      rcases mem_insNumKey ha with rfl | ha
      · exact le_of_not_le hgt
      · exact h.1 a ha

theorem sortByNumKey_sorted (l : List (String × Doc)) :
    (sortByNumKey l).Pairwise (fun a b => strToNat a.1 ≤ strToNat b.1) := by
  induction l with
  | nil => simp [sortByNumKey]
  | cons x xs ih => exact insNumKey_sorted x ih

/-! ## Key-uniqueness and string-append lemmas -/

theorem keys_dset {α : Type} (m : List (String × α)) (k : String) (v : α) :
    (dset m k v).map (fun p => p.1) =
      if m.any (fun p => p.1 = k) then m.map (fun p => p.1)
      else m.map (fun p => p.1) ++ [k] := by
  unfold dset
  split
  · rw [List.map_map]
    refine List.map_congr_left ?_
    intro p _
    by_cases hp : p.1 = k <;> simp [hp]
  · simp

theorem nodup_keys_dset {α : Type} {m : List (String × α)} (k : String) (v : α)
    (h : (m.map (fun p => p.1)).Nodup) :
    ((dset m k v).map (fun p => p.1)).Nodup := by
  rw [keys_dset]
  split
  · exact h
  case isFalse hany =>
    have hk : k ∉ m.map (fun p => p.1) := by
      intro hkm
      rcases List.mem_map.mp hkm with ⟨p, hp, hpk⟩
      exact hany (List.any_eq_true.mpr ⟨p, hp, by simp [hpk]⟩)
    refine List.nodup_append.mpr ⟨h, List.nodup_singleton k, ?_⟩
    intro a ha hb
    have hak : a = k := by simpa using hb
    exact hk (hak ▸ ha)

theorem nodup_keys_fold_dset (l : List (String × Doc)) (f : Doc → Doc)
    (acc : List (String × Doc)) (h : (acc.map (fun p => p.1)).Nodup) :
    (((l.foldl (fun a p => dset a p.1 (f p.2)) acc)).map (fun p => p.1)).Nodup := by
  induction l generalizing acc with
  | nil => exact h
  | cons p tl ih => exact ih _ (nodup_keys_dset p.1 (f p.2) h)

theorem normalizedAttributes_keys_nodup (ev : EventInput) :
    ((normalizedAttributes ev).map (fun p => p.1)).Nodup := by
  unfold normalizedAttributes
  split
  · exact nodup_keys_dset _ _ (nodup_keys_fold_dset _ _ [] (by simp))
  · exact nodup_keys_fold_dset _ _ [] (by simp)

theorem string_append_cancel_right {a b s : String} (h : a ++ s = b ++ s) : a = b := by
  have hd := congrArg String.data h
  rw [String.data_append, String.data_append] at hd
  have hdata := List.append_cancel_right hd
  cases a
  cases b
  exact congrArg String.mk hdata

/-! ## Claim C6 -/

/-- C6: `normalize_view_value` turns a dict whose keys are all decimal-digit
strings into its values joined with `", "` in ascending order of the keys'
integer values (witnessed by a permutation of the bindings that is sorted by
`strToNat` of the key, so `"10"` sorts after `"2"`); turns a list into its
stringified elements joined with `", "`; returns every other value
unchanged — a dict with a non-digit key as well as every scalar; and yields
`""` on an empty dict or list. The spec's three examples are included. -/
theorem claim_C6_normalize_view_value :
    (∀ kvs : List (String × Doc), kvs.all (fun p => isDigits p.1) = true →
      ∃ l : List (String × Doc), kvs.Perm l ∧
        l.Pairwise (fun a b => strToNat a.1 ≤ strToNat b.1) ∧
        normalize_view_value (.dict kvs) =
          .str (", ".intercalate (l.map (fun p => pyStr p.2)))) ∧
    (∀ kvs : List (String × Doc), kvs.all (fun p => isDigits p.1) = false →
      normalize_view_value (.dict kvs) = .dict kvs) ∧
    (∀ xs : List Doc,
      normalize_view_value (.list xs) = .str (", ".intercalate (xs.map pyStr))) ∧
    (∀ s, normalize_view_value (.str s) = .str s) ∧
    (∀ n, normalize_view_value (.num n) = .num n) ∧
    (∀ b, normalize_view_value (.bool b) = .bool b) ∧
    normalize_view_value .null = .null ∧
    normalize_view_value (.dict []) = .str "" ∧
    normalize_view_value (.list []) = .str "" ∧
    normalize_view_value (.dict [("2", .str "B"), ("10", .str "C"), ("1", .str "A")]) =
      .str "A, B, C" ∧
    normalize_view_value (.list [.str "x", .str "y"]) = .str "x, y" ∧
    normalize_view_value (.str "scalar") = .str "scalar" := by
  refine ⟨?_, ?_, fun xs => rfl, fun s => rfl, fun n => rfl, fun b => rfl, rfl, rfl, rfl,
    by rfl, by rfl, rfl⟩
  · intro kvs h
    refine ⟨sortByNumKey kvs, (sortByNumKey_perm kvs).symm, sortByNumKey_sorted kvs, ?_⟩
    simp [normalize_view_value, h]
  · intro kvs h
    simp [normalize_view_value, h]

/-- Witness for C6: the digit-key hypothesis holds at
`{"2": "B", "1": "A"}` and the theorem applies there; the non-digit-key
hypothesis holds at `{"a": 1}` and that dict passes through unchanged. -/
theorem claim_C6_witness :
    ([("2", Doc.str "B"), ("1", Doc.str "A")].all (fun p => isDigits p.1) = true ∧
      ∃ l : List (String × Doc), [("2", Doc.str "B"), ("1", Doc.str "A")].Perm l ∧
        l.Pairwise (fun a b => strToNat a.1 ≤ strToNat b.1) ∧
        normalize_view_value (.dict [("2", Doc.str "B"), ("1", Doc.str "A")]) =
          .str (", ".intercalate (l.map (fun p => pyStr p.2)))) ∧
    ([("a", Doc.num 1)].all (fun p => isDigits p.1) = false ∧
      normalize_view_value (.dict [("a", Doc.num 1)]) = .dict [("a", Doc.num 1)]) :=
  ⟨⟨by rfl, claim_C6_normalize_view_value.1 _ (by rfl)⟩,
    ⟨by rfl, claim_C6_normalize_view_value.2.1 _ (by rfl)⟩⟩

/-! ## Claim C5 -/

theorem dmem_true_of_dget {m : List (String × Doc)} {k : String} {v : Doc}
    (h : dget m k = some v) : dmem m k = true := by
  unfold dget at h
  cases hf : m.find? (fun p => p.1 = k) with
  | none => rw [hf] at h; simp at h
  | some q =>
    have hpred := @List.find?_some _ (fun r : String × Doc => decide (r.1 = k)) q m hf
    exact List.any_eq_true.mpr ⟨q, List.mem_of_find?_eq_some hf, hpred⟩

theorem dgetD_of_dget {α : Type} {m : List (String × α)} {k : String} {v : α}
    (dflt : α) (h : dget m k = some v) : dgetD m k dflt = v := by
  unfold dgetD
  rw [h]
  rfl

/-- C5: `decodeTagged` inspects variant keys in the fixed order
`stringValue`, `doubleValue`, `booleanValue`, `userArnValue`, `emptyValue`;
the first present key's value is returned verbatim (so a numeric variant
stays a `Doc.num`), `emptyValue` decodes to `Doc.null`, and when no known
variant key is present, the whole structure is stringified with the
unknown-variant diagnostic flag set — the function is total, so it never
raises. The spec's three examples are included. -/
theorem claim_C5_decodeTagged :
    (∀ (m : List (String × Doc)) (v : Doc), dget m "stringValue" = some v →
      decodeTagged m = (v, false)) ∧
    (∀ (m : List (String × Doc)) (v : Doc), dmem m "stringValue" = false →
      dget m "doubleValue" = some v → decodeTagged m = (v, false)) ∧
    (∀ (m : List (String × Doc)) (v : Doc), dmem m "stringValue" = false →
      dmem m "doubleValue" = false → dget m "booleanValue" = some v →
      decodeTagged m = (v, false)) ∧
    (∀ (m : List (String × Doc)) (v : Doc), dmem m "stringValue" = false →
      dmem m "doubleValue" = false → dmem m "booleanValue" = false →
      dget m "userArnValue" = some v → decodeTagged m = (v, false)) ∧
    (∀ m : List (String × Doc), dmem m "stringValue" = false →
      dmem m "doubleValue" = false → dmem m "booleanValue" = false →
      dmem m "userArnValue" = false → dmem m "emptyValue" = true →
      decodeTagged m = (.null, false)) ∧
    (∀ m : List (String × Doc), dmem m "stringValue" = false →
      dmem m "doubleValue" = false → dmem m "booleanValue" = false →
      dmem m "userArnValue" = false → dmem m "emptyValue" = false →
      decodeTagged m = (.str (pyStr (.dict m)), true)) ∧
    decodeTagged [("stringValue", .str "Open")] = (.str "Open", false) ∧
    decodeTagged [("emptyValue", .dict [])] = (.null, false) ∧
    decodeTagged [("doubleValue", .num 100123)] = (.num 100123, false) := by
  refine ⟨?_, ?_, ?_, ?_, ?_, ?_, by rfl, by rfl, by rfl⟩
  · intro m v h
    simp [decodeTagged, dmem_true_of_dget h, dgetD_of_dget _ h]
  · intro m v h1 h
    simp [decodeTagged, h1, dmem_true_of_dget h, dgetD_of_dget _ h]
  · intro m v h1 h2 h
    simp [decodeTagged, h1, h2, dmem_true_of_dget h, dgetD_of_dget _ h]
  · intro m v h1 h2 h3 h
    simp [decodeTagged, h1, h2, h3, dmem_true_of_dget h, dgetD_of_dget _ h]
  · intro m h1 h2 h3 h4 h5
    simp [decodeTagged, h1, h2, h3, h4, h5]
  · intro m h1 h2 h3 h4 h5
    simp [decodeTagged, h1, h2, h3, h4, h5]

/-- Witness for C5: the numeric-variant branch applies at
`{"doubleValue": 100123}`. -/
theorem claim_C5_witness :
    dmem [("doubleValue", Doc.num 100123)] "stringValue" = false ∧
    dget [("doubleValue", Doc.num 100123)] "doubleValue" = some (Doc.num 100123) ∧
    decodeTagged [("doubleValue", Doc.num 100123)] = (Doc.num 100123, false) :=
  ⟨by rfl, by rfl, claim_C5_decodeTagged.2.1 _ _ (by rfl) (by rfl)⟩

/-! ## Claim C3 -/

theorem extract_dict_eq (kvs : List (String × Doc)) :
    extract_name_label_pairs (.dict kvs) =
      (match nodePair kvs with | some p => [p] | none => []) ++
      (kvs.map (fun p => extract_name_label_pairs p.2)).flatten := by
  rw [extract_name_label_pairs]
  congr 1
  rw [← List.attach_map_coe kvs (fun p => extract_name_label_pairs p.2)]

theorem extract_list_eq (xs : List Doc) :
    extract_name_label_pairs (.list xs) = (xs.map extract_name_label_pairs).flatten := by
  rw [extract_name_label_pairs]
  rw [← List.attach_map_coe xs extract_name_label_pairs]

theorem extract_str_eq (s : String) : extract_name_label_pairs (.str s) = [] := by
  rw [extract_name_label_pairs] <;> simp

theorem count_dict_eq (kvs : List (String × Doc)) :
    countEmitting (.dict kvs) =
      (if (nodePair kvs).isSome then 1 else 0) +
      (kvs.map (fun p => countEmitting p.2)).sum := by
  rw [countEmitting]
  congr 1
  rw [← List.attach_map_coe kvs (fun p => countEmitting p.2)]

theorem count_list_eq (xs : List Doc) :
    countEmitting (.list xs) = (xs.map countEmitting).sum := by
  rw [countEmitting]
  rw [← List.attach_map_coe xs countEmitting]

theorem claimMatchCount_dict_eq (kvs : List (String × Doc)) :
    claimMatchCount (.dict kvs) =
      (if claimHasCI kvs "name" && claimHasCI kvs "label" then 1 else 0) +
      (kvs.map (fun p => claimMatchCount p.2)).sum := by
  rw [claimMatchCount]
  congr 1
  rw [← List.attach_map_coe kvs (fun p => claimMatchCount p.2)]

theorem claimMatchCount_str_eq (s : String) : claimMatchCount (.str s) = 0 := by
  rw [claimMatchCount] <;> simp

/-- C3, amended: for every document (the embedding has no cycles), the
extractor emits exactly one pair per dict node that satisfies the SOURCE's
condition — an exact-key `"Name"` (falling back to `"name"`) binding with a
truthy value (not necessarily a string) together with the first of the
exact keys `"Label"`, `"label"` bound to a string, that string non-empty —
counting a node and its matching descendants independently. The claim's
case-insensitive matching is refuted by `claim_C3_counterexample`. -/
theorem claim_C3_extract_count (d : Doc) :
    (extract_name_label_pairs d).length = countEmitting d := by
  induction d using extract_name_label_pairs.induct with
  | case1 kvs ih =>
    rw [extract_dict_eq, count_dict_eq, List.length_append, List.length_flatten,
      List.map_map]
    congr 1
    · cases nodePair kvs <;> simp
    · congr 1
      refine List.map_congr_left ?_
      intro p hp
      exact ih ⟨p, hp⟩
  | case2 xs ih =>
    rw [extract_list_eq, count_list_eq, List.length_flatten, List.map_map]
    congr 1
    refine List.map_congr_left ?_
    intro x hx
    exact ih ⟨x, hx⟩
  | case3 v h1 h2 =>
    have he : extract_name_label_pairs v = [] := by
      rw [extract_name_label_pairs]
      · exact h1
      · exact h2
    have hc : countEmitting v = 0 := by
      rw [countEmitting]
      · exact h1
      · exact h2
    rw [he, hc]
    rfl

/-- Counterexample to C3 as stated: on `{"NAME": "x", "LABEL": "y"}` the
source emits nothing (it only matches the exact keys `"Name"`/`"name"` and
`"Label"`/`"label"`), while the claim's case-insensitive condition counts
one matching node, so the claimed output size is wrong at this input. -/
theorem claim_C3_counterexample :
    extract_name_label_pairs (.dict [("NAME", .str "x"), ("LABEL", .str "y")]) = [] ∧
    claimMatchCount (.dict [("NAME", .str "x"), ("LABEL", .str "y")]) = 1 ∧
    (extract_name_label_pairs (.dict [("NAME", .str "x"), ("LABEL", .str "y")])).length ≠
      claimMatchCount (.dict [("NAME", .str "x"), ("LABEL", .str "y")]) := by
  have he : extract_name_label_pairs (.dict [("NAME", .str "x"), ("LABEL", .str "y")]) = [] := by
    rw [extract_dict_eq]
    simp only [List.map_cons, List.map_nil, extract_str_eq]
    rfl
  have hc : claimMatchCount (.dict [("NAME", .str "x"), ("LABEL", .str "y")]) = 1 := by
    rw [claimMatchCount_dict_eq]
    simp only [List.map_cons, List.map_nil, claimMatchCount_str_eq]
    rfl
  exact ⟨he, hc, by rw [he, hc]; simp⟩

/-! ## Claim C4 -/

theorem chainWalk_trace_length (fetch : String → Except PyErr Contact) :
    ∀ (n : Nat) (cid : String) (c : Contact) (tr : List String),
      ((chainWalk fetch n cid c tr).1).length ≤ tr.length + n := by
  intro n
  induction n with
  | zero => intro cid c tr; simp [chainWalk]
  | succ n ih =>
    intro cid c tr
    rw [chainWalk]
    cases hf : fetch cid with
    | error e => simp
    | ok c2 =>
      by_cases hv : c2.channel.getD "" = "VOICE"
      · simp [hv]
      · cases hr : c2.relatedContactId with
        | none => simp [hv, hr]
        | some r =>
          by_cases h1 : r = ""
          · simp [hv, hr, h1]
          · by_cases h2 : r = cid
            · simp [hv, hr, h1, h2]
            · have hrec := ih r c2 (tr ++ [cid])
              simp only [hv, hr, h1, h2, if_neg, List.length_append] at hrec ⊢
              simp at hrec ⊢
              omega

/-- C4: the lineage walk fetches at most 5 contacts no matter what the
oracle does; it stops after the first fetch when that contact is VOICE,
when its back-reference is absent, or when the back-reference equals the
current id (self-reference guard); and on the concrete chain of length 8 it
fetches exactly the first five contacts and stops with the current id
advanced to the fifth hop, `"c5"`. -/
theorem claim_C4_walk_bound :
    (∀ (fetch : String → Except PyErr Contact) (cid : String),
      ((chainWalk fetch 5 cid {} []).1).length ≤ 5) ∧
    (∀ (fetch : String → Except PyErr Contact) (cid : String) (c : Contact),
      fetch cid = .ok c → c.channel.getD "" = "VOICE" →
      chainWalk fetch 5 cid {} [] = ([cid], .ok (cid, c))) ∧
    (∀ (fetch : String → Except PyErr Contact) (cid : String) (c : Contact),
      fetch cid = .ok c → c.channel.getD "" ≠ "VOICE" →
      c.relatedContactId = none →
      chainWalk fetch 5 cid {} [] = ([cid], .ok (cid, c))) ∧
    (∀ (fetch : String → Except PyErr Contact) (cid : String) (c : Contact),
      fetch cid = .ok c → c.channel.getD "" ≠ "VOICE" →
      c.relatedContactId = some cid →
      chainWalk fetch 5 cid {} [] = ([cid], .ok (cid, c))) ∧
    chainWalk chain8Fetch 5 "c0" {} [] =
      (["c0", "c1", "c2", "c3", "c4"], .ok ("c5", chain8Contact 4)) := by
  refine ⟨?_, ?_, ?_, ?_, by rfl⟩
  · intro fetch cid
    simpa using chainWalk_trace_length fetch 5 cid {} []
  · intro fetch cid c hf hv
    rw [show (5 : Nat) = 4 + 1 from rfl, chainWalk, hf]
    simp [hv]
  · intro fetch cid c hf hv hr
    rw [show (5 : Nat) = 4 + 1 from rfl, chainWalk, hf]
    simp [hv, hr]
  · intro fetch cid c hf hv hr
    rw [show (5 : Nat) = 4 + 1 from rfl, chainWalk, hf]
    simp [hv, hr]

/-- Witness for C4: the early-stop branches apply at a VOICE contact, a
missing back-reference, and a self-reference, respectively. -/
theorem claim_C4_witness :
    (voiceFetch "v0" = .ok { channel := some "VOICE" } ∧
      ({ channel := some "VOICE" } : Contact).channel.getD "" = "VOICE" ∧
      chainWalk voiceFetch 5 "v0" {} [] =
        (["v0"], .ok ("v0", { channel := some "VOICE" }))) ∧
    ((chainWalk chain8Fetch 5 "c0" {} []).1).length ≤ 5 :=
  ⟨⟨by rfl, by rfl, claim_C4_walk_bound.2.1 voiceFetch "v0" _ (by rfl) (by rfl)⟩,
    claim_C4_walk_bound.1 chain8Fetch "c0"⟩

/-! ## Claim C10 -/

/-- C10, amended: when all five loop iterations advance (each fetched
contact is non-terminal and carries a truthy back-reference different from
the current id), the walk ends with `current_id` set to the back-reference
of the fifth contact — an id the exhausted loop never fetches — while the
extraction phase reads every other attribute from the fifth contact, the
last one actually fetched. (The claim's aside that the final id names a
contact that was never fetched at all fails on cyclic graphs, see
`claim_C10_counterexample`; on the straight chain of the witness it does
hold.) -/
theorem claim_C10_budget_exhaustion
    (fetch : String → Except PyErr Contact)
    (fu : String → Except PyErr UserData)
    (fcamp : String → Except PyErr (Option String))
    (i0 i1 i2 i3 i4 i5 : String) (c0 c1 c2 c3 c4 : Contact)
    (hf0 : fetch i0 = .ok c0) (hv0 : c0.channel.getD "" ≠ "VOICE")
    (hr0 : c0.relatedContactId = some i1) (hn1 : i1 ≠ "") (hs1 : i1 ≠ i0)
    (hf1 : fetch i1 = .ok c1) (hv1 : c1.channel.getD "" ≠ "VOICE")
    (hr1 : c1.relatedContactId = some i2) (hn2 : i2 ≠ "") (hs2 : i2 ≠ i1)
    (hf2 : fetch i2 = .ok c2) (hv2 : c2.channel.getD "" ≠ "VOICE")
    (hr2 : c2.relatedContactId = some i3) (hn3 : i3 ≠ "") (hs3 : i3 ≠ i2)
    (hf3 : fetch i3 = .ok c3) (hv3 : c3.channel.getD "" ≠ "VOICE")
    (hr3 : c3.relatedContactId = some i4) (hn4 : i4 ≠ "") (hs4 : i4 ≠ i3)
    (hf4 : fetch i4 = .ok c4) (hv4 : c4.channel.getD "" ≠ "VOICE")
    (hr4 : c4.relatedContactId = some i5) (hn5 : i5 ≠ "") (hs5 : i5 ≠ i4) :
    chainWalk fetch 5 i0 {} [] = ([i0, i1, i2, i3, i4], .ok (i5, c4)) ∧
    getContactDetails fetch fu fcamp i0 =
      basePart i5 c4 ++ agentPart fu c4 ++ campaignPart fcamp c4 := by
  have s0 : chainWalk fetch 5 i0 {} [] = chainWalk fetch 4 i1 c0 [i0] := by
    rw [show (5 : Nat) = 4 + 1 from rfl, chainWalk, hf0]
    simp [hv0, hr0, hn1, hs1]
  have s1 : chainWalk fetch 4 i1 c0 [i0] = chainWalk fetch 3 i2 c1 [i0, i1] := by
    rw [show (4 : Nat) = 3 + 1 from rfl, chainWalk, hf1]
    simp [hv1, hr1, hn2, hs2]
  have s2 : chainWalk fetch 3 i2 c1 [i0, i1] = chainWalk fetch 2 i3 c2 [i0, i1, i2] := by
    rw [show (3 : Nat) = 2 + 1 from rfl, chainWalk, hf2]
    simp [hv2, hr2, hn3, hs3]
  have s3 : chainWalk fetch 2 i3 c2 [i0, i1, i2] =
      chainWalk fetch 1 i4 c3 [i0, i1, i2, i3] := by
    rw [show (2 : Nat) = 1 + 1 from rfl, chainWalk, hf3]
    simp [hv3, hr3, hn4, hs4]
  have s4 : chainWalk fetch 1 i4 c3 [i0, i1, i2, i3] =
      ([i0, i1, i2, i3, i4], .ok (i5, c4)) := by
    rw [show (1 : Nat) = 0 + 1 from rfl, chainWalk, hf4]
    simp [hv4, hr4, hn5, hs5, chainWalk]
  have hw := ((s0.trans s1).trans s2).trans (s3.trans s4)
  refine ⟨hw, ?_⟩
  simp [getContactDetails, hw]

/-- Counterexample to C10 as stated: on the cycle `A → B → A` the budget is
exhausted with the last fetched contact (at `"A"`) non-terminal and
back-referencing `"B" ≠ "A"`, and `DescribedContactId` is indeed `"B"` —
but `"B"` WAS fetched during the walk (hops 1 and 3 of the trace), so the
claim's "a contact that was never fetched" is false at this input. -/
theorem claim_C10_counterexample :
    (chainWalk cycleFetch 5 "A" {} []).2 =
      .ok ("B", { channel := some "CHAT", relatedContactId := some "B" }) ∧
    dget (getContactDetails cycleFetch failUser failCampaign "A")
      "DescribedContactId" = some "B" ∧
    (chainWalk cycleFetch 5 "A" {} []).1 = ["A", "B", "A", "B", "A"] ∧
    "B" ∈ (chainWalk cycleFetch 5 "A" {} []).1 := by
  refine ⟨by rfl, by rfl, by rfl, ?_⟩
  rw [show (chainWalk cycleFetch 5 "A" {} []).1 = ["A", "B", "A", "B", "A"] from rfl]
  simp

/-- Witness for C10: the amended theorem applies to the straight chain of
length 8, where the returned id `"c5"` is indeed never fetched. -/
theorem claim_C10_witness :
    chainWalk chain8Fetch 5 "c0" {} [] =
      (["c0", "c1", "c2", "c3", "c4"], .ok ("c5", chain8Contact 4)) ∧
    getContactDetails chain8Fetch failUser failCampaign "c0" =
      basePart "c5" (chain8Contact 4) ++ agentPart failUser (chain8Contact 4) ++
        campaignPart failCampaign (chain8Contact 4) ∧
    "c5" ∉ (chainWalk chain8Fetch 5 "c0" {} []).1 := by
  have h := claim_C10_budget_exhaustion chain8Fetch failUser failCampaign
    "c0" "c1" "c2" "c3" "c4" "c5"
    (chain8Contact 0) (chain8Contact 1) (chain8Contact 2) (chain8Contact 3)
    (chain8Contact 4)
    (by rfl) (by decide) (by rfl) (by decide) (by decide)
    (by rfl) (by decide) (by rfl) (by decide) (by decide)
    (by rfl) (by decide) (by rfl) (by decide) (by decide)
    (by rfl) (by decide) (by rfl) (by decide) (by decide)
    (by rfl) (by decide) (by rfl) (by decide) (by decide)
  refine ⟨h.1, h.2, ?_⟩
  rw [h.1]
  decide

/-! ## Claim C7 -/

theorem dget_addIf_ne {q k : String} (r : Record) (v : Option String) (h : q ≠ k) :
    dget (addIf r k v) q = dget r q := by
  unfold addIf
  cases v with
  | none => rfl
  | some s =>
    by_cases hs : s = ""
    · simp [hs]
    · have hk : dget [(k, s)] q = none := by
        rw [dget_cons, if_neg (fun hc => h hc.symm)]
        rfl
      simp only [hs, ne_eq, not_false_eq_true, if_true, dget_append, hk]
      cases dget r q <;> rfl

theorem dget_basePart_ne (curId : String) (c : Contact) (q : String)
    (h1 : q ≠ "DescribedContactId") (h2 : q ≠ "OriginalContactChannel")
    (h3 : q ≠ "InitiationTimestamp") (h4 : q ≠ "DisconnectTimestamp")
    (h5 : q ≠ "ConnectedToSystemTimestamp") (h6 : q ≠ "LastUpdateTimestamp")
    (h7 : q ≠ "LastPausedTimestamp") (h8 : q ≠ "LastResumedTimestamp")
    (h9 : q ≠ "ScheduledTimestamp") (h10 : q ≠ "ConnectedToAgentTimestamp")
    (h11 : q ≠ "AcceptedByAgentTimestamp") (h12 : q ≠ "AfterContactWorkStartTimestamp")
    (h13 : q ≠ "AfterContactWorkEndTimestamp") (h14 : q ≠ "EnqueueTimestamp") :
    dget (basePart curId c) q = none := by
  unfold basePart
  rw [dget_addIf_ne _ _ h14, dget_addIf_ne _ _ h13, dget_addIf_ne _ _ h12,
    dget_addIf_ne _ _ h11, dget_addIf_ne _ _ h10, dget_addIf_ne _ _ h9,
    dget_addIf_ne _ _ h8, dget_addIf_ne _ _ h7, dget_addIf_ne _ _ h6,
    dget_addIf_ne _ _ h5, dget_addIf_ne _ _ h4, dget_addIf_ne _ _ h3,
    dget_addIf_ne _ _ h2, dget_cons, if_neg (fun hc => h1 hc.symm)]
  rfl

theorem eraseKeys_append {α : Type} (a b : List (String × α)) (ks : List String) :
    eraseKeys (a ++ b) ks = eraseKeys a ks ++ eraseKeys b ks :=
  List.filter_append a b

theorem eraseKeys_agentUserFields (aid : String) (res : Except PyErr UserData) :
    eraseKeys (agentUserFields aid res) ["AgentName", "AgentUsername"] =
      [("AgentId", aid)] := by
  unfold agentUserFields
  cases res with
  | error e => simp [eraseKeys]
  | ok u =>
    cases hu : u.username with
    | none =>
      by_cases h1 : u.firstName = "" <;> by_cases h2 : u.lastName = "" <;>
        simp [hu, h1, h2, addIf, eraseKeys]
    | some un =>
      by_cases hun : un = "" <;> by_cases h1 : u.firstName = "" <;>
        by_cases h2 : u.lastName = "" <;>
        simp [hu, hun, h1, h2, addIf, eraseKeys]

theorem eraseKeys_campaignNameFields (cmId : String)
    (res : Except PyErr (Option String)) :
    eraseKeys (campaignNameFields cmId res) ["CampaignName"] =
      [("CampaignId", cmId)] := by
  unfold campaignNameFields
  cases res with
  | error e => simp [eraseKeys]
  | ok o =>
    cases o with
    | none => simp [eraseKeys]
    | some nm => by_cases hn : nm = "" <;> simp [hn, eraseKeys]

theorem eraseKeys_agentPart (fu fu2 : String → Except PyErr UserData) (c : Contact) :
    eraseKeys (agentPart fu c) ["AgentName", "AgentUsername"] =
      eraseKeys (agentPart fu2 c) ["AgentName", "AgentUsername"] := by
  unfold agentPart
  cases (c.agentInfo.getD {}).id with
  | none => rfl
  | some aid =>
    by_cases ha : aid = ""
    · simp [ha]
    · simp only [ha, ne_eq, not_false_eq_true, if_true,
        eraseKeys_agentUserFields]

theorem eraseKeys_campaignPart (fc fc2 : String → Except PyErr (Option String))
    (c : Contact) :
    eraseKeys (campaignPart fc c) ["CampaignName"] =
      eraseKeys (campaignPart fc2 c) ["CampaignName"] := by
  unfold campaignPart
  cases (c.campaign.getD {}).campaignId with
  | none => rfl
  | some cmId =>
    by_cases ha : cmId = ""
    · simp [ha]
    · simp only [ha, ne_eq, not_false_eq_true, if_true,
        eraseKeys_campaignNameFields]

theorem dget_agentUserFields_ne (aid : String) (res : Except PyErr UserData)
    (q : String) (hq1 : q ≠ "AgentId") (hq2 : q ≠ "AgentName")
    (hq3 : q ≠ "AgentUsername") : dget (agentUserFields aid res) q = none := by
  have g1 := Ne.symm hq1
  have g2 := Ne.symm hq2
  have g3 := Ne.symm hq3
  unfold agentUserFields
  cases res with
  | error e => simp [dget_cons, dget, g1]
  | ok u =>
    cases hu : u.username with
    | none =>
      by_cases h1 : u.firstName = "" <;> by_cases h2 : u.lastName = "" <;>
        simp [hu, h1, h2, addIf, dget_cons, dget, g1, g2]
    | some un =>
      by_cases hun : un = "" <;> by_cases h1 : u.firstName = "" <;>
        by_cases h2 : u.lastName = "" <;>
        simp [hu, hun, h1, h2, addIf, dget_cons, dget, g1, g2, g3]

theorem dget_agentPart_ne (fu : String → Except PyErr UserData) (c : Contact)
    (q : String) (hq1 : q ≠ "AgentId") (hq2 : q ≠ "AgentName")
    (hq3 : q ≠ "AgentUsername") : dget (agentPart fu c) q = none := by
  unfold agentPart
  cases (c.agentInfo.getD {}).id with
  | none => rfl
  | some aid =>
    by_cases ha : aid = ""
    · simp [ha, dget]
    · simp [ha, dget_agentUserFields_ne aid (fu aid) q hq1 hq2 hq3]

theorem dget_campaignNameFields_ne (cmId : String)
    (res : Except PyErr (Option String)) (q : String)
    (hq1 : q ≠ "CampaignId") (hq2 : q ≠ "CampaignName") :
    dget (campaignNameFields cmId res) q = none := by
  have g1 := Ne.symm hq1
  have g2 := Ne.symm hq2
  unfold campaignNameFields
  cases res with
  | error e => simp [dget_cons, dget, g1]
  | ok o =>
    cases o with
    | none => simp [dget_cons, dget, g1]
    | some nm => by_cases hn : nm = "" <;> simp [hn, dget_cons, dget, g1, g2]

theorem dget_campaignPart_ne (fc : String → Except PyErr (Option String))
    (c : Contact) (q : String) (hq1 : q ≠ "CampaignId") (hq2 : q ≠ "CampaignName") :
    dget (campaignPart fc c) q = none := by
  unfold campaignPart
  cases (c.campaign.getD {}).campaignId with
  | none => rfl
  | some cmId =>
    by_cases ha : cmId = ""
    · simp [ha, dget]
    · simp [ha, dget_campaignNameFields_ne cmId (fc cmId) q hq1 hq2]

theorem dget_agentPart_failing (ef : String → PyErr) (c : Contact) (q : String)
    (hq : q ≠ "AgentId") :
    dget (agentPart (fun a => .error (ef a)) c) q = none := by
  have g1 := Ne.symm hq
  unfold agentPart
  cases (c.agentInfo.getD {}).id with
  | none => rfl
  | some aid =>
    by_cases ha : aid = ""
    · simp [ha, dget]
    · simp [ha, agentUserFields, dget_cons, dget, g1]

theorem dget_campaignPart_failing (ef : String → PyErr) (c : Contact) (q : String)
    (hq : q ≠ "CampaignId") :
    dget (campaignPart (fun a => .error (ef a)) c) q = none := by
  have g1 := Ne.symm hq
  unfold campaignPart
  cases (c.campaign.getD {}).campaignId with
  | none => rfl
  | some cmId =>
    by_cases ha : cmId = ""
    · simp [ha, dget]
    · simp [ha, campaignNameFields, dget_cons, dget, g1]

/-- C7: the lineage resolver degrades gracefully under any upstream failure
(its return type is a plain `Record`; oracles fail through `Except`):
a `describe_contact` failure during the walk yields the record as
accumulated at that point, which is empty because the source populates
`result` only after the walk; the result is independent of the
`describe_user` oracle outside the `AgentName`/`AgentUsername` fields, and
independent of the `describe_campaign` oracle outside `CampaignName`; and
with an always-raising actor (resp. campaign) oracle, the corresponding
display-name fields are simply absent. -/
theorem claim_C7_graceful_degradation :
    (∀ (fetch : String → Except PyErr Contact)
      (fu : String → Except PyErr UserData)
      (fcamp : String → Except PyErr (Option String)) (cid : String) (e : PyErr),
      (chainWalk fetch 5 cid {} []).2 = .error e →
      getContactDetails fetch fu fcamp cid = []) ∧
    (∀ (fetch : String → Except PyErr Contact)
      (fu fu2 : String → Except PyErr UserData)
      (fcamp : String → Except PyErr (Option String)) (cid : String),
      eraseKeys (getContactDetails fetch fu fcamp cid) ["AgentName", "AgentUsername"] =
        eraseKeys (getContactDetails fetch fu2 fcamp cid) ["AgentName", "AgentUsername"]) ∧
    (∀ (fetch : String → Except PyErr Contact)
      (fu : String → Except PyErr UserData)
      (fc fc2 : String → Except PyErr (Option String)) (cid : String),
      eraseKeys (getContactDetails fetch fu fc cid) ["CampaignName"] =
        eraseKeys (getContactDetails fetch fu fc2 cid) ["CampaignName"]) ∧
    (∀ (fetch : String → Except PyErr Contact)
      (fcamp : String → Except PyErr (Option String)) (cid : String)
      (ef : String → PyErr),
      dget (getContactDetails fetch (fun a => .error (ef a)) fcamp cid) "AgentName" = none ∧
      dget (getContactDetails fetch (fun a => .error (ef a)) fcamp cid) "AgentUsername" = none) ∧
    (∀ (fetch : String → Except PyErr Contact)
      (fu : String → Except PyErr UserData) (cid : String) (ef : String → PyErr),
      dget (getContactDetails fetch fu (fun a => .error (ef a)) cid) "CampaignName" = none) := by
  refine ⟨?_, ?_, ?_, ?_, ?_⟩
  · intro fetch fu fcamp cid e h
    simp [getContactDetails, h]
  · intro fetch fu fu2 fcamp cid
    unfold getContactDetails
    cases hw : (chainWalk fetch 5 cid {} []).2 with
    | error e => rfl
    | ok p =>
      obtain ⟨cur, c⟩ := p
      simp only [eraseKeys_append]
      rw [eraseKeys_agentPart fu fu2]
  · intro fetch fu fc fc2 cid
    unfold getContactDetails
    cases hw : (chainWalk fetch 5 cid {} []).2 with
    | error e => rfl
    | ok p =>
      obtain ⟨cur, c⟩ := p
      simp only [eraseKeys_append]
      rw [eraseKeys_campaignPart fc fc2]
  · intro fetch fcamp cid ef
    unfold getContactDetails
    cases hw : (chainWalk fetch 5 cid {} []).2 with
    | error e => exact ⟨rfl, rfl⟩
    | ok p =>
      obtain ⟨cur, c⟩ := p
      refine ⟨?_, ?_⟩
      · simp [dget_append,
          dget_basePart_ne cur c "AgentName" (by decide) (by decide) (by decide)
            (by decide) (by decide) (by decide) (by decide) (by decide) (by decide)
            (by decide) (by decide) (by decide) (by decide) (by decide),
          dget_agentPart_failing ef c "AgentName" (by decide),
          dget_campaignPart_ne fcamp c "AgentName" (by decide) (by decide)]
      · simp [dget_append,
          dget_basePart_ne cur c "AgentUsername" (by decide) (by decide) (by decide)
            (by decide) (by decide) (by decide) (by decide) (by decide) (by decide)
            (by decide) (by decide) (by decide) (by decide) (by decide),
          dget_agentPart_failing ef c "AgentUsername" (by decide),
          dget_campaignPart_ne fcamp c "AgentUsername" (by decide) (by decide)]
  · intro fetch fu cid ef
    unfold getContactDetails
    cases hw : (chainWalk fetch 5 cid {} []).2 with
    | error e => rfl
    | ok p =>
      obtain ⟨cur, c⟩ := p
      simp [dget_append,
        dget_basePart_ne cur c "CampaignName" (by decide) (by decide) (by decide)
          (by decide) (by decide) (by decide) (by decide) (by decide) (by decide)
          (by decide) (by decide) (by decide) (by decide) (by decide),
        dget_agentPart_ne fu c "CampaignName" (by decide) (by decide) (by decide),
        dget_campaignPart_failing ef c "CampaignName" (by decide)]

/-- Witness for C7: an always-raising `describe_contact` oracle aborts the
walk immediately and the resolver returns the empty record. -/
theorem claim_C7_witness :
    (chainWalk failContact 5 "x" {} []).2 = .error {} ∧
    getContactDetails failContact failUser failCampaign "x" = [] :=
  ⟨by rfl,
    claim_C7_graceful_degradation.1 failContact failUser failCampaign "x" {} (by rfl)⟩

/-! ## Claim C1 -/

theorem write_puts_eq (cfg : Config) (s : List (String × Doc) → Except PyErr Unit)
    (i : List (String × Doc)) :
    (write_to_dynamodb cfg s i).1 = if cfg.ddbEnabled then [i] else [] := by
  unfold write_to_dynamodb
  cases hd : cfg.ddbEnabled with
  | false => simp
  | true => cases s i <;> simp

/-- C1, amended: the merge goes the other way round — the item is built by
successive dict updates and the lineage/contact attributes are applied
AFTER the normalized fields, so on a key collision the lineage record's
value overwrites the normalized field's value (the claim's stated
precedence is refuted by `claim_C1_counterexample`). With the ViewQuestions
stage off, any key bound by the lineage record ends up in the persisted
item with the lineage value. -/
theorem claim_C1_lineage_overwrites (cfg : Config) (up : Upstream) (ev : EventInput)
    (hddb : cfg.ddbEnabled = true) (hvq : cfg.vqTable = none)
    (hic : truthyStr ev.contactData.initialContactId = true)
    (hgate : (truthyStr ev.contactData.instanceARN &&
      truthyStr ev.contactData.relatedContactId) = true)
    (k v : String)
    (hv : dlast (getContactDetails up.fetchContact up.fetchUser up.fetchCampaign
            (ev.contactData.relatedContactId.getD "")) k = some v) :
    (lambda_handler cfg up ev).puts = [handlerFinalItem cfg up ev] ∧
    dget (handlerFinalItem cfg up ev) k = some (.str v) := by
  constructor
  · simp [lambda_handler, hic, write_puts_eq, hddb]
  · have hfin : handlerFinalItem cfg up ev = handlerItem cfg up ev := by
      simp [handlerFinalItem, hvq, truthyStr]
    rw [hfin]
    simp only [handlerItem, hgate, if_true]
    rw [dget_dupdate, dlast_map_snd, hv]
    rfl

/-- Counterexample to C1 as stated: the event carries a normalized field
`"ContactId" = "FROMVIEW"` and a contact attribute `ContactId = "REAL"`;
the persisted record holds `"REAL"`, not the normalized value — contact and
lineage attributes do overwrite normalized fields of the same name. -/
theorem claim_C1_counterexample :
    (lambda_handler exCfg stubUpstream exC1Event).ret =
      [("ContactId", .str "FROMVIEW")] ∧
    (lambda_handler exCfg stubUpstream exC1Event).puts.length = 1 ∧
    dget ((lambda_handler exCfg stubUpstream exC1Event).puts.headD [])
      "ContactId" = some (.str "REAL") ∧
    dget ((lambda_handler exCfg stubUpstream exC1Event).puts.headD [])
      "ContactId" ≠ some (.str "FROMVIEW") := by
  refine ⟨by rfl, by rfl, by rfl, ?_⟩
  intro hc
  rw [show dget ((lambda_handler exCfg stubUpstream exC1Event).puts.headD [])
      "ContactId" = some (.str "REAL") from rfl] at hc
  simp at hc

/-- Witness for C1: with a VOICE-terminated lineage, the lineage record
binds `DescribedContactId` and that value is persisted. -/
theorem claim_C1_witness :
    exCfg.ddbEnabled = true ∧ exCfg.vqTable = none ∧
    truthyStr exC1WEvent.contactData.initialContactId = true ∧
    (truthyStr exC1WEvent.contactData.instanceARN &&
      truthyStr exC1WEvent.contactData.relatedContactId) = true ∧
    dlast (getContactDetails exC1WUp.fetchContact exC1WUp.fetchUser
        exC1WUp.fetchCampaign (exC1WEvent.contactData.relatedContactId.getD ""))
      "DescribedContactId" = some "R1" ∧
    ((lambda_handler exCfg exC1WUp exC1WEvent).puts =
        [handlerFinalItem exCfg exC1WUp exC1WEvent] ∧
      dget (handlerFinalItem exCfg exC1WUp exC1WEvent) "DescribedContactId" =
        some (.str "R1")) :=
  ⟨by rfl, by rfl, by rfl, by rfl, by rfl,
    claim_C1_lineage_overwrites exCfg exC1WUp exC1WEvent (by rfl) (by rfl) (by rfl)
      (by rfl) "DescribedContactId" "R1" (by rfl)⟩

/-! ## Claim C2 -/

theorem dget_vqApplyKey_other
    (vq : String → Except PyErr (List (List (String × Doc))))
    (item : List (String × Doc)) (k q : String) (h : k ++ "_Question" ≠ q) :
    dget (vqApplyKey vq item k) q = dget item q := by
  unfold vqApplyKey
  by_cases hk : k = "viewAction"
  · simp [hk]
  · cases hvq : vq k with
    | error e => simp [hk]
    | ok items =>
      cases items with
      | nil => simp [hk]
      | cons it rest =>
        by_cases hl : truthy (dgetD it "Label" (.str "")) = true
        · simp [hk, hl, dget_dset_ne _ _ (Ne.symm h)]
        · simp [hk, hl]

theorem dget_vqItemStage_preserve
    (vq : String → Except PyErr (List (List (String × Doc))))
    (ks : List String) (item : List (String × Doc)) (q : String)
    (h : ∀ k ∈ ks, k ++ "_Question" ≠ q) :
    dget (vqItemStage vq ks item) q = dget item q := by
  induction ks generalizing item with
  | nil => rfl
  | cons k0 tl ih =>
    show dget (vqItemStage vq tl (vqApplyKey vq item k0)) q = dget item q
    rw [ih (vqApplyKey vq item k0) (fun k hk => h k (List.mem_cons_of_mem k0 hk)),
      dget_vqApplyKey_other vq item k0 q (h k0 (List.mem_cons_self k0 tl))]

theorem dget_vqItemStage_hit
    (vq : String → Except PyErr (List (List (String × Doc))))
    (ks : List String) (item : List (String × Doc)) (k : String)
    (it : List (String × Doc)) (rest : List (List (String × Doc)))
    (hmem : k ∈ ks) (hnd : ks.Nodup) (hka : k ≠ "viewAction")
    (hq : vq k = .ok (it :: rest))
    (hlt : truthy (dgetD it "Label" (.str "")) = true) :
    dget (vqItemStage vq ks item) (k ++ "_Question") =
      some (dgetD it "Label" (.str "")) := by
  induction ks generalizing item with
  | nil => cases hmem
  | cons k0 tl ih =>
    rcases List.mem_cons.mp hmem with rfl | hmem2
    · have hknotin : k ∉ tl := (List.nodup_cons.mp hnd).1
      have hpres : ∀ kk ∈ tl, kk ++ "_Question" ≠ k ++ "_Question" := by
        intro kk hkk hc
        exact hknotin ((string_append_cancel_right hc) ▸ hkk)
      show dget (vqItemStage vq tl (vqApplyKey vq item k)) (k ++ "_Question") = _
      rw [dget_vqItemStage_preserve vq tl _ _ hpres]
      unfold vqApplyKey
      simp [hka, hq, hlt, dget_dset_self]
    · exact ih (vqApplyKey vq item k0) hmem2 (List.nodup_cons.mp hnd).2

/-- C2, amended: the companion attribute is named `<key>_Question`, not
`<key>_Label` (the claim's name is refuted by `claim_C2_counterexample`).
With the side table configured, for every normalized field key except the
reserved `"viewAction"` key, if the first item of the lookup has a truthy
`Label`, the written record binds `<key>_Question` to that label. -/
theorem claim_C2_question_attribute (cfg : Config) (up : Upstream) (ev : EventInput)
    (hddb : cfg.ddbEnabled = true) (hvq : truthyStr cfg.vqTable = true)
    (hic : truthyStr ev.contactData.initialContactId = true)
    (k : String) (hk : k ∈ (normalizedAttributes ev).map (fun p => p.1))
    (hka : k ≠ "viewAction")
    (it : List (String × Doc)) (rest : List (List (String × Doc)))
    (hq : up.vqQuery k = .ok (it :: rest))
    (hlt : truthy (dgetD it "Label" (.str "")) = true) :
    (lambda_handler cfg up ev).puts = [handlerFinalItem cfg up ev] ∧
    dget (handlerFinalItem cfg up ev) (k ++ "_Question") =
      some (dgetD it "Label" (.str "")) := by
  constructor
  · simp [lambda_handler, hic, write_puts_eq, hddb]
  · unfold handlerFinalItem
    rw [if_pos (by simp [hvq, hddb])]
    exact dget_vqItemStage_hit up.vqQuery _ _ k it rest hk
      (normalizedAttributes_keys_nodup ev) hka hq hlt

/-- Counterexample to C2 as stated: the lookup returns the label `"QText"`
for the normalized key `"q1"`, and the persisted record binds it under
`"q1_Question"`; there is no `"q1_Label"` attribute. -/
theorem claim_C2_counterexample :
    (lambda_handler exC2Cfg exC2Up exC2Event).puts.length = 1 ∧
    dget ((lambda_handler exC2Cfg exC2Up exC2Event).puts.headD [])
      "q1_Question" = some (.str "QText") ∧
    dget ((lambda_handler exC2Cfg exC2Up exC2Event).puts.headD [])
      "q1_Label" = none :=
  ⟨by rfl, by rfl, by rfl⟩

/-- Witness for C2: the amended theorem applies at the concrete
configuration of `claim_C2_counterexample`. -/
theorem claim_C2_witness :
    exC2Cfg.ddbEnabled = true ∧ truthyStr exC2Cfg.vqTable = true ∧
    truthyStr exC2Event.contactData.initialContactId = true ∧
    "q1" ∈ (normalizedAttributes exC2Event).map (fun p => p.1) ∧
    exC2Up.vqQuery "q1" = .ok [[("Label", .str "QText")]] ∧
    truthy (dgetD [("Label", Doc.str "QText")] "Label" (.str "")) = true ∧
    ((lambda_handler exC2Cfg exC2Up exC2Event).puts =
        [handlerFinalItem exC2Cfg exC2Up exC2Event] ∧
      dget (handlerFinalItem exC2Cfg exC2Up exC2Event) ("q1" ++ "_Question") =
        some (dgetD [("Label", Doc.str "QText")] "Label" (.str ""))) :=
  ⟨by rfl, by rfl, by rfl, by decide, by rfl, by rfl,
    claim_C2_question_attribute exC2Cfg exC2Up exC2Event (by rfl) (by rfl) (by rfl)
      "q1" (by decide) (by decide)
      [("Label", Doc.str "QText")] [] (by rfl) (by rfl)⟩

/-! ## Claim C8 -/

/-- C8: when `InitialContactId` is absent or falsy, the handler attempts no
`put_item`, queries the side table for no key, and still returns the
normalized attributes — the storage block is skipped as a no-op, not an
error. -/
theorem claim_C8_missing_primary_key (cfg : Config) (up : Upstream) (ev : EventInput)
    (h : truthyStr ev.contactData.initialContactId = false) :
    (lambda_handler cfg up ev).puts = [] ∧
    (lambda_handler cfg up ev).queries = [] ∧
    (lambda_handler cfg up ev).ret = normalizedAttributes ev := by
  simp [lambda_handler, h]

/-- Witness for C8: an event with no `InitialContactId` at all. -/
theorem claim_C8_witness :
    truthyStr (({} : EventInput)).contactData.initialContactId = false ∧
    ((lambda_handler exCfg stubUpstream {}).puts = [] ∧
      (lambda_handler exCfg stubUpstream {}).queries = [] ∧
      (lambda_handler exCfg stubUpstream {}).ret = normalizedAttributes {}) :=
  ⟨by rfl, claim_C8_missing_primary_key exCfg stubUpstream {} (by rfl)⟩

/-! ## Claim C9 -/

/-- C9, amended: a storage failure is caught; the failure log line is a
function of the raised error alone — its arguments are exactly the error
class name and message, so it contains neither the key nor any field value
(the claim's "logged with the key" is refuted by
`claim_C9_counterexample`); the `put_item` was still attempted with the
computed item; and the handler's observable outcome (returned normalized
attributes, attempted puts, queried keys) is the same whatever the store
does, so the invocation is not aborted. -/
theorem claim_C9_storage_failure :
    (∀ (cfg : Config) (store : List (String × Doc) → Except PyErr Unit)
      (item : List (String × Doc)) (e : PyErr), cfg.ddbEnabled = true →
      store item = .error e →
      (write_to_dynamodb cfg store item).2 =
        [⟨if e.isClient then "DynamoDB ClientError: %s: %s"
          else "DynamoDB write failed: %s: %s", [e.className, e.msg]⟩] ∧
      (write_to_dynamodb cfg store item).1 = [item]) ∧
    (∀ (cfg : Config) (up : Upstream) (ev : EventInput)
      (store2 : List (String × Doc) → Except PyErr Unit),
      (lambda_handler cfg up ev).ret =
        (lambda_handler cfg { up with store := store2 } ev).ret ∧
      (lambda_handler cfg up ev).puts =
        (lambda_handler cfg { up with store := store2 } ev).puts ∧
      (lambda_handler cfg up ev).queries =
        (lambda_handler cfg { up with store := store2 } ev).queries) := by
  constructor
  · intro cfg store item e hddb hse
    unfold write_to_dynamodb
    simp [hddb, hse]
  · intro cfg up ev store2
    by_cases hic : truthyStr ev.contactData.initialContactId
    · refine ⟨?_, ?_, ?_⟩ <;>
        simp [lambda_handler, hic, write_puts_eq, handlerFinalItem, handlerItem]
    · simp only [Bool.not_eq_true] at hic
      refine ⟨?_, ?_, ?_⟩ <;> simp [lambda_handler, hic]

/-- Witness for C9: a concrete `ClientError` during the upsert of
`exC9Item`. -/
theorem claim_C9_witness :
    exCfg.ddbEnabled = true ∧
    failStoreClient exC9Item =
      .error { className := "ClientError", msg := "boom", isClient := true } ∧
    ((write_to_dynamodb exCfg failStoreClient exC9Item).2 =
        [⟨"DynamoDB ClientError: %s: %s", ["ClientError", "boom"]⟩] ∧
      (write_to_dynamodb exCfg failStoreClient exC9Item).1 = [exC9Item]) :=
  ⟨by rfl, by rfl,
    claim_C9_storage_failure.1 exCfg failStoreClient exC9Item
      { className := "ClientError", msg := "boom", isClient := true }
      (by rfl) (by rfl)⟩

/-- Counterexample to C9 as stated: with the primary-key attribute
`"K-123"` in the item, the failure log entry's arguments are exactly the
error class and message — the key is NOT logged. -/
theorem claim_C9_counterexample :
    (write_to_dynamodb exCfg failStoreClient exC9Item).2 =
      [⟨"DynamoDB ClientError: %s: %s", ["ClientError", "boom"]⟩] ∧
    (∀ e ∈ (write_to_dynamodb exCfg failStoreClient exC9Item).2,
      "K-123" ∉ e.args) := by
  refine ⟨by rfl, ?_⟩
  intro e he
  rw [show (write_to_dynamodb exCfg failStoreClient exC9Item).2 =
    [⟨"DynamoDB ClientError: %s: %s", ["ClientError", "boom"]⟩] from rfl] at he
  simp at he
  subst he
  decide

end WVD
